import Mathlib

/-!
# Verification of the AI quota-and-cache gateway

Shallow embedding of the usage ledger, quota policy, cached-artifact slots,
invalidation triggers and the generation orchestrator of the issue tracker.

Source files embedded:
* `src/lib/ai.ts` — rate limiting, usage increment, the per-feature
  generation functions and their result post-processing;
* `src/app/api/issues/[issueId]/ai/route.ts` — the POST orchestrator for
  summary / suggestion / commentSummary;
* `src/app/api/issues/[issueId]/comments/route.ts` — comment creation and
  the digest-cache invalidation it performs;
* `jira-lite/src/app/api/issues/[issueId]/route.ts` — the issue PUT update
  and the description-edit cache invalidation.

Modelling conventions: timestamps are naturals counting milliseconds on a
process-local clock (the code only compares, adds and floors timestamps);
the external OpenAI call is a parameter of type `Except String (Option
String)` (an `.error msg` models a thrown request, `.ok c` models a
response whose message content is `c`, with `none` for a missing/null
content field); `JSON.parse` of generator output is likewise a parameter,
since it is a platform builtin, while the regex extraction steps
(`/\[.*\]/s`, extracting from the first opening to the last closing
bracket) are implemented concretely.
-/

namespace JiraLite

/-- Milliseconds on the process-local clock. -/
abbrev Time := Nat

def msPerMinute : Time := 60 * 1000

def msPerDay : Time := 24 * 60 * 60 * 1000

/-- Midnight of the calendar day containing `t` (models
`new Date(now.getFullYear(), now.getMonth(), now.getDate())` on a
process-local clock with whole-day granularity). -/
def dayStart (t : Time) : Time := (t / msPerDay) * msPerDay

-- Rate limiting constants, `src/lib/ai.ts` lines 25-28.
def RATE_LIMIT_PER_MINUTE : Nat := 10

def RATE_LIMIT_PER_DAY : Nat := 100

def MIN_DESCRIPTION_LENGTH : Nat := 10

/-- One row of the `AIUsage` table: one record per (userId, calendar day),
with the Prisma-maintained `updatedAt` timestamp the minute query reads. -/
structure AIUsage where
  userId : String
  date : Time
  count : Nat
  updatedAt : Time
deriving Repr, DecidableEq

/-- `db.aIUsage.findUnique` on the (userId, date) unique key. -/
def findDaily (store : List AIUsage) (userId : String) (date : Time) :
    Option AIUsage :=
  store.find? (fun r => r.userId == userId && r.date == date)

/-- The daily count visible in the store (0 when no row exists yet). -/
def dailyCount (store : List AIUsage) (userId : String) (day : Time) : Nat :=
  match findDaily store userId day with
  | some r => r.count
  | none => 0

/-- Return value of `checkRateLimit`. -/
structure RateLimitStatus where
  allowed : Bool
  remainingMinute : Nat
  remainingDaily : Nat
  resetTime : Option Time
deriving Repr, DecidableEq

/-- `checkRateLimit` from `src/lib/ai.ts` lines 33-98. Returns the status
together with the store (the function lazily creates the daily record with
count 0 before checking, so the store may gain a row). The minute-window
query counts rows of the whole `AIUsage` table for this user whose
`updatedAt` is within the trailing 60 seconds, exactly as
`db.aIUsage.count({where: {userId, updatedAt: {gte: oneMinuteAgo}}})`. -/
def checkRateLimit (store : List AIUsage) (userId : String) (now : Time) :
    RateLimitStatus × List AIUsage :=
  let today := dayStart now
  let oneMinuteAgo := now - msPerMinute
  let found := findDaily store userId today
  let dailyUsage := match found with
    | some r => r
    | none => { userId := userId, date := today, count := 0, updatedAt := now }
  let store1 := match found with
    | some _ => store
    | none => store ++ [dailyUsage]
  if RATE_LIMIT_PER_DAY ≤ dailyUsage.count then
    ({ allowed := false, remainingMinute := 0, remainingDaily := 0,
       resetTime := some (today + msPerDay) }, store1)
  else
    let recentUsage :=
      (store1.filter (fun r => r.userId == userId && oneMinuteAgo ≤ r.updatedAt)).length
    if RATE_LIMIT_PER_MINUTE ≤ recentUsage then
      ({ allowed := false, remainingMinute := 0,
         remainingDaily := RATE_LIMIT_PER_DAY - dailyUsage.count,
         resetTime := some (oneMinuteAgo + msPerMinute) }, store1)
    else
      ({ allowed := true,
         remainingMinute := RATE_LIMIT_PER_MINUTE - recentUsage,
         remainingDaily := RATE_LIMIT_PER_DAY - dailyUsage.count,
         resetTime := none }, store1)

/-- `incrementUsage` from `src/lib/ai.ts` lines 103-123: upsert on
(userId, today), incrementing `count` (Prisma refreshes `updatedAt`). -/
def incrementUsage (store : List AIUsage) (userId : String) (now : Time) :
    List AIUsage :=
  let today := dayStart now
  match findDaily store userId today with
  | some _ =>
      store.map (fun r =>
        if r.userId == userId && r.date == today then
          { r with count := r.count + 1, updatedAt := now }
        else r)
  | none =>
      store ++ [{ userId := userId, date := today, count := 1, updatedAt := now }]

/-- `getRateLimitMessage` from `src/lib/ai.ts` lines 359-374. -/
def getRateLimitMessage (remainingMinute remainingDaily : Nat)
    (resetTime : Option Time) (now : Time) : String :=
  if remainingDaily = 0 then
    "Daily AI limit reached. Resets at midnight."
  else if remainingMinute = 0 then
    let resetIn := match resetTime with
      | some t => (t - now + 999) / 1000
      | none => 60
    "Rate limit reached. Please wait " ++ toString resetIn ++ " seconds."
  else
    toString remainingDaily ++ " AI requests remaining today."

/-- A non-deleted comment on an issue, as the AI route sees it after the
author join (`author.name || Unknown` already applied). -/
structure Comment where
  author : String
  content : String
  createdAt : Time
deriving Repr, DecidableEq

/-- The issue row: the columns read or written by the AI gateway, the
issue PUT update and the comment POST. `comments` carries the non-deleted
comments the AI route loads alongside the issue. -/
structure Issue where
  title : String
  description : Option String
  status : String
  customStatusId : Option String
  assigneeId : Option String
  dueDate : Option Time
  priority : String
  position : Int
  aiSummary : Option String
  aiSummaryCachedAt : Option Time
  aiSuggestion : Option String
  aiSuggestionCachedAt : Option Time
  aiCommentSummary : Option String
  aiCommentSummaryCachedAt : Option Time
  comments : List Comment
deriving Repr, DecidableEq

/-- JavaScript truthiness of a nullable string column: present and
non-empty. -/
def strTruthy : Option String → Bool
  | some s => !(s == (""))
  | none => false

/-- `canUseAI` from `src/lib/ai.ts` lines 352-354:
`!!description && description.length > MIN_DESCRIPTION_LENGTH`. -/
def canUseAI : Option String → Bool
  | some d => decide (MIN_DESCRIPTION_LENGTH < d.length)
  | none => false

/-- `content || dflt`: the fallback the generation functions apply to the
possibly missing or empty message content of the API response. -/
def orDefault : Option String → String → String
  | some s, d => if s == ("") then d else s
  | none, d => d

/-- Outcome of one call to the external OpenAI client:
`.error msg` models a thrown request, `.ok c` a response whose message
content is `c` (`none` when the content field is missing). -/
abbrev ApiOutcome := Except String (Option String)

/-- Errors thrown by the generation functions: their own length/count
guards, or a propagated upstream failure. -/
inductive GenError where
  | validation (msg : String)
  | upstream (msg : String)
deriving Repr, DecidableEq

/-- The message the route-level catch surfaces (`error.message`). -/
def genErrorMessage : GenError → String
  | .validation m => m
  | .upstream m => m

/-- `generateIssueSummary` from `src/lib/ai.ts` lines 128-154. -/
def generateIssueSummary (title description : String) (api : ApiOutcome) :
    Except GenError String :=
  if description.length ≤ MIN_DESCRIPTION_LENGTH then
    .error (.validation ("Description must be longer than 10 characters for AI features"))
  else
    match api with
    | .error e => .error (.upstream e)
    | .ok c => .ok (orDefault c ("Unable to generate summary."))

/-- `generateSolutionSuggestion` from `src/lib/ai.ts` lines 159-185. -/
def generateSolutionSuggestion (title description : String) (api : ApiOutcome) :
    Except GenError String :=
  if description.length ≤ MIN_DESCRIPTION_LENGTH then
    .error (.validation ("Description must be longer than 10 characters for AI features"))
  else
    match api with
    | .error e => .error (.upstream e)
    | .ok c => .ok (orDefault c ("Unable to generate suggestions."))

/-- The regex step `content.match(/\[.*\]/s)`: greedy match from the first
opening bracket to the last closing bracket at or after it. -/
def matchBrackets (s : String) : Option String :=
  let cs := s.data
  match cs.findIdx? (fun c => c == '[') with
  | none => none
  | some i =>
    match cs.reverse.findIdx? (fun c => c == ']') with
    | none => none
    | some jr =>
      let j := cs.length - 1 - jr
      if i ≤ j then some (String.mk ((cs.drop i).take (j - i + 1))) else none

/-- The regex step `content.match(/\{[\s\S]*\}/)`: greedy match from the
first opening brace to the last closing brace at or after it. -/
def matchBraces (s : String) : Option String :=
  let cs := s.data
  match cs.findIdx? (fun c => c == '\x7b') with
  | none => none
  | some i =>
    match cs.reverse.findIdx? (fun c => c == '\x7d') with
    | none => none
    | some jr =>
      let j := cs.length - 1 - jr
      if i ≤ j then some (String.mk ((cs.drop i).take (j - i + 1))) else none

/-- A project label as passed to `recommendLabels`. -/
structure LabelRef where
  id : String
  name : String
deriving Repr, DecidableEq

/-- `recommendLabels` from `src/lib/ai.ts` lines 190-233.
`jsonParseNames` models `JSON.parse` applied to the extracted bracket
match, expected to yield an array of label-name strings; `none` models a
parse throw, which the catch turns into an empty result. -/
def recommendLabels (title description : String)
    (availableLabels : List LabelRef) (api : ApiOutcome)
    (jsonParseNames : String → Option (List String)) :
    Except GenError (List LabelRef) :=
  if availableLabels.length = 0 then .ok []
  else
    match api with
    | .error e => .error (.upstream e)
    | .ok c =>
      let content := orDefault c ("[]")
      match matchBrackets content with
      | none => .ok []
      | some m =>
        match jsonParseNames m with
        | none => .ok []
        | some recommendedNames =>
          .ok ((availableLabels.filter (fun label =>
            recommendedNames.any (fun n => n.toLower == label.name.toLower))).take 3)

/-- An existing issue as listed for duplicate detection. -/
structure IssueRef where
  id : String
  title : String
deriving Repr, DecidableEq

/-- One entry of the similarity array the generator is asked to return:
a 1-based index and a similarity score. -/
structure SimEntry where
  index : Nat
  similarity : Int
deriving Repr, DecidableEq

/-- A detected duplicate. -/
structure DupResult where
  id : String
  title : String
  similarity : Int
deriving Repr, DecidableEq

/-- `detectDuplicates` from `src/lib/ai.ts` lines 238-292.
`jsonParseSims` models `JSON.parse` of the extracted bracket match
(`none` = parse throw, caught into an empty result). An out-of-range or
zero index yields no entry, as indexing past the array does in the
source. -/
def detectDuplicates (title : String) (existingIssues : List IssueRef)
    (api : ApiOutcome) (jsonParseSims : String → Option (List SimEntry)) :
    Except GenError (List DupResult) :=
  if existingIssues.length = 0 then .ok []
  else
    match api with
    | .error e => .error (.upstream e)
    | .ok c =>
      let content := orDefault c ("[]")
      match matchBrackets content with
      | none => .ok []
      | some m =>
        match jsonParseSims m with
        | none => .ok []
        | some similarities =>
          .ok ((((similarities.filter (fun s => (50 : Int) ≤ s.similarity)).filterMap
            (fun s =>
              if s.index = 0 then none
              else match existingIssues.get? (s.index - 1) with
                | none => none
                | some issue =>
                  some { id := issue.id, title := issue.title,
                         similarity := s.similarity })).take 3))

/-- The parsed object `summarizeComments` returns. -/
structure DigestResult where
  summary : String
  keyDecisions : List String
deriving Repr, DecidableEq

/-- `summarizeComments` from `src/lib/ai.ts` lines 297-347.
`jsonParseDigest` models `JSON.parse` of the extracted brace match
(`none` = parse throw, caught into the raw-content fallback). -/
def summarizeComments (issueTitle : String) (comments : List Comment)
    (api : ApiOutcome) (jsonParseDigest : String → Option DigestResult) :
    Except GenError DigestResult :=
  if comments.length < 5 then
    .error (.validation ("At least 5 comments are required for summarization"))
  else
    match api with
    | .error e => .error (.upstream e)
    | .ok c =>
      let content := orDefault c ("")
      match matchBraces content with
      | some m =>
        match jsonParseDigest m with
        | some parsed => .ok parsed
        | none =>
          .ok { summary := orDefault c ("Unable to summarize discussion."),
                keyDecisions := [] }
      | none => .ok { summary := content, keyDecisions := [] }

/-- `JSON.stringify` of a string (escaping elided; no claim depends on
escape handling). -/
def jsonQuote (s : String) : String := "\"" ++ s ++ "\""

/-- `JSON.stringify` of the digest object the route caches. -/
def jsonStringifyDigest (d : DigestResult) : String :=
  "\x7b" ++ ("\"summary\":" ++ jsonQuote d.summary ++ ",\"keyDecisions\":[" ++
    String.intercalate (",") (d.keyDecisions.map jsonQuote) ++ "]\x7d")

/-- The `type` field of a generation request body, after the route has
already rejected any other value with a 400. -/
inductive AIType where
  | summary
  | suggestion
  | commentSummary
deriving Repr, DecidableEq

/-- The phases of the orchestration state machine, recorded in the order
the route performs them. -/
inductive Phase where
  | quotaCheck
  | cacheCheck
  | validate
  | generate
  | persist
  | respond
deriving Repr, DecidableEq

/-- Content of a 200 response: plain text for summary/suggestion, the
parsed digest object for commentSummary. -/
inductive RespContent where
  | text (s : String)
  | digest (d : DigestResult)
deriving Repr, DecidableEq

/-- The JSON responses of the issue AI POST route: 200 with content, 429
rate limited, 400 bad request, 500 from the route-level catch. -/
inductive AIResponse where
  | ok (content : RespContent) (cached : Bool) (remainingMinute remainingDaily : Nat)
  | rateLimited (message : String)
  | badRequest (message : String)
  | serverError (message : String)
deriving Repr, DecidableEq

/-- Everything one invocation of the POST handler produces: the response,
the issue row and usage store as left behind, whether the external
generator was invoked, and the trace of state-machine phases. -/
structure AIOutcome where
  response : AIResponse
  issue : Issue
  store : List AIUsage
  generatorCalled : Bool
  trace : List Phase
deriving Repr, DecidableEq

/-- The branch of the POST handler reached once `checkRateLimit` allowed
the request (`src/app/api/issues/[issueId]/ai/route.ts` lines 116-253).
`rateLimit` and `store1` are the result and store of that check. -/
def handleAllowed (ty : AIType) (issue : Issue) (rateLimit : RateLimitStatus)
    (store1 : List AIUsage) (userId : String) (now : Time) (api : ApiOutcome)
    (jsonParseDigest : String → Option DigestResult) : AIOutcome :=
  match ty with
  | .summary =>
    if strTruthy issue.aiSummary && issue.aiSummaryCachedAt.isSome then
      { response := .ok (.text (issue.aiSummary.getD (""))) true
          rateLimit.remainingMinute rateLimit.remainingDaily,
        issue := issue, store := store1, generatorCalled := false,
        trace := [.quotaCheck, .cacheCheck] }
    else if !canUseAI issue.description then
      { response := .badRequest ("Description must be longer than 10 characters for AI features"),
        issue := issue, store := store1, generatorCalled := false,
        trace := [.quotaCheck, .cacheCheck, .validate] }
    else
      let store2 := incrementUsage store1 userId now
      match generateIssueSummary issue.title (issue.description.getD ("")) api with
      | .error e =>
        { response := .serverError (genErrorMessage e), issue := issue,
          store := store2, generatorCalled := true,
          trace := [.quotaCheck, .cacheCheck, .validate, .generate] }
      | .ok summary =>
        { response := .ok (.text summary) false
            (rateLimit.remainingMinute - 1) (rateLimit.remainingDaily - 1),
          issue := { issue with
            aiSummary := some summary,
            aiSummaryCachedAt := some now },
          store := store2, generatorCalled := true,
          trace := [.quotaCheck, .cacheCheck, .validate, .generate, .persist, .respond] }
  | .suggestion =>
    if strTruthy issue.aiSuggestion && issue.aiSuggestionCachedAt.isSome then
      { response := .ok (.text (issue.aiSuggestion.getD (""))) true
          rateLimit.remainingMinute rateLimit.remainingDaily,
        issue := issue, store := store1, generatorCalled := false,
        trace := [.quotaCheck, .cacheCheck] }
    else if !canUseAI issue.description then
      { response := .badRequest ("Description must be longer than 10 characters for AI features"),
        issue := issue, store := store1, generatorCalled := false,
        trace := [.quotaCheck, .cacheCheck, .validate] }
    else
      let store2 := incrementUsage store1 userId now
      match generateSolutionSuggestion issue.title (issue.description.getD ("")) api with
      | .error e =>
        { response := .serverError (genErrorMessage e), issue := issue,
          store := store2, generatorCalled := true,
          trace := [.quotaCheck, .cacheCheck, .validate, .generate] }
      | .ok suggestion =>
        { response := .ok (.text suggestion) false
            (rateLimit.remainingMinute - 1) (rateLimit.remainingDaily - 1),
          issue := { issue with
            aiSuggestion := some suggestion,
            aiSuggestionCachedAt := some now },
          store := store2, generatorCalled := true,
          trace := [.quotaCheck, .cacheCheck, .validate, .generate, .persist, .respond] }
  | .commentSummary =>
    if issue.comments.length < 5 then
      { response := .badRequest ("At least 5 comments are required for summarization"),
        issue := issue, store := store1, generatorCalled := false,
        trace := [.quotaCheck, .validate] }
    else if strTruthy issue.aiCommentSummary && issue.aiCommentSummaryCachedAt.isSome then
      match jsonParseDigest (issue.aiCommentSummary.getD ("")) with
      | some d =>
        { response := .ok (.digest d) true
            rateLimit.remainingMinute rateLimit.remainingDaily,
          issue := issue, store := store1, generatorCalled := false,
          trace := [.quotaCheck, .validate, .cacheCheck] }
      | none =>
        -- JSON.parse of the cached string threw; the route-level catch
        -- turns this into a 500.
        { response := .serverError ("Unexpected token in JSON"), issue := issue,
          store := store1, generatorCalled := false,
          trace := [.quotaCheck, .validate, .cacheCheck] }
    else
      let store2 := incrementUsage store1 userId now
      match summarizeComments issue.title issue.comments api jsonParseDigest with
      | .error e =>
        { response := .serverError (genErrorMessage e), issue := issue,
          store := store2, generatorCalled := true,
          trace := [.quotaCheck, .validate, .cacheCheck, .generate] }
      | .ok d =>
        { response := .ok (.digest d) false
            (rateLimit.remainingMinute - 1) (rateLimit.remainingDaily - 1),
          issue := { issue with
            aiCommentSummary := some (jsonStringifyDigest d),
            aiCommentSummaryCachedAt := some now },
          store := store2, generatorCalled := true,
          trace := [.quotaCheck, .validate, .cacheCheck, .generate, .persist, .respond] }

/-- The POST handler of `src/app/api/issues/[issueId]/ai/route.ts` from
the rate-limit check on (authentication, issue access and the type-string
check have already succeeded; they are performed by collaborators before
the quota-and-cache core is reached). -/
def handleIssueAI (ty : AIType) (issue : Issue) (store : List AIUsage)
    (userId : String) (now : Time) (api : ApiOutcome)
    (jsonParseDigest : String → Option DigestResult) : AIOutcome :=
  let rl := checkRateLimit store userId now
  if rl.1.allowed then
    handleAllowed ty issue rl.1 rl.2 userId now api jsonParseDigest
  else
    { response := .rateLimited (getRateLimitMessage rl.1.remainingMinute
        rl.1.remainingDaily rl.1.resetTime now),
      issue := issue, store := rl.2, generatorCalled := false,
      trace := [.quotaCheck] }

/-- Whether the slot the request asks for is populated (the truthiness
test the route applies to the pair of columns). -/
def slotPopulated (ty : AIType) (issue : Issue) : Bool :=
  match ty with
  | .summary => strTruthy issue.aiSummary && issue.aiSummaryCachedAt.isSome
  | .suggestion => strTruthy issue.aiSuggestion && issue.aiSuggestionCachedAt.isSome
  | .commentSummary => strTruthy issue.aiCommentSummary && issue.aiCommentSummaryCachedAt.isSome

def isServed : AIResponse → Bool
  | .ok .. => true
  | _ => false

def isQuotaExceeded : AIResponse → Bool
  | .rateLimited _ => true
  | _ => false

def isValidationFailed : AIResponse → Bool
  | .badRequest _ => true
  | _ => false

def isUpstreamFailed : AIResponse → Bool
  | .serverError _ => true
  | _ => false

/-- How many of the four terminal-state classes a response belongs to. -/
def terminalCount (r : AIResponse) : Nat :=
  (if isServed r then 1 else 0) + (if isQuotaExceeded r then 1 else 0) +
  (if isValidationFailed r then 1 else 0) + (if isUpstreamFailed r then 1 else 0)

/-- The phase sequences the POST handler can perform, one per branch. -/
def allowedTraces : List (List Phase) :=
  [[.quotaCheck],
   [.quotaCheck, .cacheCheck],
   [.quotaCheck, .cacheCheck, .validate],
   [.quotaCheck, .cacheCheck, .validate, .generate],
   [.quotaCheck, .cacheCheck, .validate, .generate, .persist, .respond],
   [.quotaCheck, .validate],
   [.quotaCheck, .validate, .cacheCheck],
   [.quotaCheck, .validate, .cacheCheck, .generate],
   [.quotaCheck, .validate, .cacheCheck, .generate, .persist, .respond]]

/-- The body of an issue PUT after `updateIssueSchema` validation
(`jira-lite/src/app/api/issues/[issueId]/route.ts`). Outer `none` means
the field was absent from the request; for nullable columns the inner
`Option` distinguishes an explicit null. `assigneeId` uses the empty
string to mean unassign, as the route does. `labelIds` is handled through
a separate join table and never touches the issue row. -/
structure UpdatePayload where
  title : Option String
  description : Option String
  status : Option String
  customStatusId : Option (Option String)
  assigneeId : Option String
  dueDate : Option (Option Time)
  priority : Option String
  labelIds : Option (List String)
  position : Option Int
deriving Repr, DecidableEq

/-- The partial update object the PUT handler passes to
`db.issue.update`. Outer `none` = column untouched; `some v` = column set
to `v` (with `some none` = set to null). -/
structure UpdateData where
  title : Option String
  description : Option String
  aiSummary : Option (Option String)
  aiSummaryCachedAt : Option (Option Time)
  aiSuggestion : Option (Option String)
  aiSuggestionCachedAt : Option (Option Time)
  status : Option String
  customStatusId : Option (Option String)
  assigneeId : Option (Option String)
  dueDate : Option (Option Time)
  priority : Option String
  position : Option Int
deriving Repr, DecidableEq

/-- Builds `updateData` exactly as
`jira-lite/src/app/api/issues/[issueId]/route.ts` lines 324-340 does:
each field is copied when present, and a present `description`
additionally sets the four summary/suggestion cache columns to null.
No other field touches any AI cache column. -/
def buildUpdateData (p : UpdatePayload) : UpdateData :=
  { title := p.title,
    description := p.description,
    aiSummary := if p.description.isSome then some none else none,
    aiSummaryCachedAt := if p.description.isSome then some none else none,
    aiSuggestion := if p.description.isSome then some none else none,
    aiSuggestionCachedAt := if p.description.isSome then some none else none,
    status := p.status,
    customStatusId := p.customStatusId,
    assigneeId := p.assigneeId.map (fun a => if a == ("") then none else some a),
    dueDate := p.dueDate,
    priority := p.priority,
    position := p.position }

/-- `db.issue.update` applying a partial update object to the row, all
named columns written in one atomic update. -/
def applyUpdateData (i : Issue) (d : UpdateData) : Issue :=
  { i with
    title := d.title.getD i.title,
    description := match d.description with
      | some v => some v
      | none => i.description,
    aiSummary := d.aiSummary.getD i.aiSummary,
    aiSummaryCachedAt := d.aiSummaryCachedAt.getD i.aiSummaryCachedAt,
    aiSuggestion := d.aiSuggestion.getD i.aiSuggestion,
    aiSuggestionCachedAt := d.aiSuggestionCachedAt.getD i.aiSuggestionCachedAt,
    status := d.status.getD i.status,
    customStatusId := d.customStatusId.getD i.customStatusId,
    assigneeId := d.assigneeId.getD i.assigneeId,
    dueDate := d.dueDate.getD i.dueDate,
    priority := d.priority.getD i.priority,
    position := d.position.getD i.position }

/-- The issue PUT handler effect on the issue row. -/
def updateIssue (i : Issue) (p : UpdatePayload) : Issue :=
  applyUpdateData i (buildUpdateData p)

/-- The comment POST handler effect on the issue
(`src/app/api/issues/[issueId]/comments/route.ts`): the comment is
created, then the discussion-digest cache pair is set to null. -/
def addComment (i : Issue) (c : Comment) : Issue :=
  { i with
    comments := i.comments ++ [c],
    aiCommentSummary := none,
    aiCommentSummaryCachedAt := none }

/-- The slot invariant of the cached-artifact store: per slot, content is
present and non-empty exactly when the cached-at timestamp is present. -/
def slotInv (i : Issue) : Prop :=
  strTruthy i.aiSummary = i.aiSummaryCachedAt.isSome ∧
  strTruthy i.aiSuggestion = i.aiSuggestionCachedAt.isSome ∧
  strTruthy i.aiCommentSummary = i.aiCommentSummaryCachedAt.isSome

/-! ## Concrete fixtures used by counterexamples and witnesses -/

def mkComment (n : Nat) : Comment :=
  { author := "alice", content := "a comment", createdAt := n }

/-- A reference time: some instant well inside a calendar day. -/
def t0 : Time := 1000000000

/-- An issue with a long-enough description and every cache slot empty. -/
def emptyCacheIssue : Issue :=
  { title := "Login button broken",
    description := some ("a description long enough"),
    status := "BACKLOG", customStatusId := none, assigneeId := none,
    dueDate := none, priority := "MEDIUM", position := 0,
    aiSummary := none, aiSummaryCachedAt := none,
    aiSuggestion := none, aiSuggestionCachedAt := none,
    aiCommentSummary := none, aiCommentSummaryCachedAt := none,
    comments := [] }

/-- An issue whose summary slot is populated but whose current description
is too short to pass validation. -/
def cachedSummaryShortDesc : Issue :=
  { emptyCacheIssue with
    description := some ("short"),
    aiSummary := some ("cached summary"),
    aiSummaryCachedAt := some t0 }

/-- An issue whose discussion-digest slot is populated while only four
non-deleted comments remain (comment deletion does not invalidate the
digest slot, so this state is reachable). -/
def cachedDigestFourComments : Issue :=
  { emptyCacheIssue with
    aiCommentSummary := some ("cached digest"),
    aiCommentSummaryCachedAt := some t0,
    comments := [mkComment 1, mkComment 2, mkComment 3, mkComment 4] }

/-- An issue with a too-short description and empty cache slots. -/
def shortDescNoCache : Issue :=
  { emptyCacheIssue with description := some ("short") }

/-- The ledger state produced by ten generation events by one user within
a single minute: one daily row whose count is 10. -/
def tenEventsStore : List AIUsage :=
  (List.range 10).foldl (fun s i => incrementUsage s ("u") (t0 + 1000 * i)) []

/-- A ledger with the daily count already at the per-day limit. -/
def fullDayStore : List AIUsage :=
  [{ userId := "u", date := dayStart t0, count := 100, updatedAt := t0 - 1 }]

/-- A PUT body that edits only the description. -/
def updatePayloadDesc : UpdatePayload :=
  { title := none, description := some ("a brand new description"),
    status := none, customStatusId := none, assigneeId := none,
    dueDate := none, priority := none, labelIds := none, position := none }

/-! ## Helper lemmas -/

lemma orDefault_beq_empty_false (c : Option String) (d : String)
    (hd : (d == ("")) = false) : ((orDefault c d) == ("")) = false := by
  unfold orDefault
  cases c with
  | none => exact hd
  | some s =>
    cases hs : s == ("") with
    | true => simp only [if_pos rfl, hs, if_true]; exact hd
    | false => simp only [hs]; simpa using hs

lemma jsonStringifyDigest_beq_empty_false (d : DigestResult) :
    ((jsonStringifyDigest d) == ("")) = false := by
  have hlen : (jsonStringifyDigest d).length ≠ 0 := by
    unfold jsonStringifyDigest
    rw [String.length_append]
    have h1 : ("\x7b" : String).length = 1 := by decide
    omega
  cases hb : (jsonStringifyDigest d) == ("") with
  | false => rfl
  | true =>
    exfalso
    have he : jsonStringifyDigest d = ("") := eq_of_beq hb
    rw [he] at hlen
    exact hlen rfl

lemma dailyCount_append_new (s : List AIUsage) (u : String) (day : Time)
    (r : AIUsage) (h : findDaily s u day = none) (hu : r.userId = u)
    (hd : r.date = day) : dailyCount (s ++ [r]) u day = r.count := by
  unfold dailyCount findDaily at *
  rw [List.find?_append, h]
  simp [hu, hd]

lemma dailyCount_incrementUsage (s : List AIUsage) (u : String) (now : Time) :
    dailyCount (incrementUsage s u now) u (dayStart now) =
    dailyCount s u (dayStart now) + 1 := by
  unfold incrementUsage
  dsimp only
  cases h : findDaily s u (dayStart now) with
  | none =>
    rw [dailyCount_append_new s u (dayStart now)
      { userId := u, date := dayStart now, count := 1, updatedAt := now } h rfl rfl]
    unfold dailyCount
    rw [h]
  | some r =>
    have hpf : ((fun x => x.userId == u && x.date == dayStart now) ∘
        (fun x : AIUsage => if x.userId == u && x.date == dayStart now then
          { x with count := x.count + 1, updatedAt := now } else x)) =
        (fun x : AIUsage => x.userId == u && x.date == dayStart now) := by
      funext x
      by_cases hx : (x.userId == u && x.date == dayStart now) = true
      · simp [Function.comp, hx]
      · simp only [Function.comp]
        rw [if_neg hx]
    unfold dailyCount findDaily at *
    rw [List.find?_map, hpf, h]
    have hp : (r.userId == u && r.date == dayStart now) = true := by
      have := List.find?_some h
      simpa using this
    have hp2 : r.userId = u ∧ r.date = dayStart now := by simpa using hp
    simp [hp, hp2]

lemma dailyCount_checkRateLimit (s : List AIUsage) (u : String) (now : Time) :
    dailyCount (checkRateLimit s u now).2 u (dayStart now) =
    dailyCount s u (dayStart now) := by
  unfold checkRateLimit
  dsimp only
  cases h : findDaily s u (dayStart now) with
  | some r => dsimp only; split <;> (try split) <;> rfl
  | none =>
    have hn : dailyCount
        (s ++ [{ userId := u, date := dayStart now, count := 0, updatedAt := now }])
        u (dayStart now) = 0 :=
      dailyCount_append_new s u (dayStart now)
        { userId := u, date := dayStart now, count := 0, updatedAt := now } h rfl rfl
    have hz : dailyCount s u (dayStart now) = 0 := by
      unfold dailyCount; rw [h]
    split <;> (try split) <;> simp_all

lemma generateIssueSummary_error_api (t d m : String) :
    generateIssueSummary t d (Except.error m) =
      Except.error (if d.length ≤ MIN_DESCRIPTION_LENGTH then
        GenError.validation ("Description must be longer than 10 characters for AI features")
        else GenError.upstream m) := by
  unfold generateIssueSummary
  split <;> simp_all

lemma generateSolutionSuggestion_error_api (t d m : String) :
    generateSolutionSuggestion t d (Except.error m) =
      Except.error (if d.length ≤ MIN_DESCRIPTION_LENGTH then
        GenError.validation ("Description must be longer than 10 characters for AI features")
        else GenError.upstream m) := by
  unfold generateSolutionSuggestion
  split <;> simp_all

lemma summarizeComments_error_api (t : String) (cs : List Comment) (m : String)
    (jd : String → Option DigestResult) :
    summarizeComments t cs (Except.error m) jd =
      Except.error (if cs.length < 5 then
        GenError.validation ("At least 5 comments are required for summarization")
        else GenError.upstream m) := by
  unfold summarizeComments
  split <;> simp_all

lemma generateIssueSummary_ok_ne_empty (t d : String) (api : ApiOutcome)
    (s : String) (h : generateIssueSummary t d api = Except.ok s) :
    (s == ("")) = false := by
  unfold generateIssueSummary at h
  split at h
  · exact absurd h (by simp)
  · cases api with
    | error e => exact absurd h (by simp)
    | ok c =>
      have : orDefault c ("Unable to generate summary.") = s := by
        simpa using h
      rw [← this]
      exact orDefault_beq_empty_false c _ (by decide)

lemma generateSolutionSuggestion_ok_ne_empty (t d : String) (api : ApiOutcome)
    (s : String) (h : generateSolutionSuggestion t d api = Except.ok s) :
    (s == ("")) = false := by
  unfold generateSolutionSuggestion at h
  split at h
  · exact absurd h (by simp)
  · cases api with
    | error e => exact absurd h (by simp)
    | ok c =>
      have : orDefault c ("Unable to generate suggestions.") = s := by
        simpa using h
      rw [← this]
      exact orDefault_beq_empty_false c _ (by decide)

lemma handleIssueAI_allowed (ty : AIType) (issue : Issue) (store : List AIUsage)
    (u : String) (now : Time) (api : ApiOutcome)
    (parse : String → Option DigestResult)
    (h : (checkRateLimit store u now).1.allowed = true) :
    handleIssueAI ty issue store u now api parse =
      handleAllowed ty issue (checkRateLimit store u now).1
        (checkRateLimit store u now).2 u now api parse := by
  unfold handleIssueAI
  simp [h]

/-! ## Claim theorems -/

/-- C1: the claim says that ten generation events by one user within the
trailing 60 seconds make `checkRateLimit` deny with `remainingMinute = 0`
and a reset 60 seconds after the oldest event, the count being computed
from per-event or per-minute data. The code instead counts rows of a
table that has one row per user per day, so after ten `incrementUsage`
calls inside one minute the single daily row makes the recent-row count 1
and the request is still allowed with `remainingMinute = 9`. -/
theorem checkRateLimit_ten_events_still_allowed :
    tenEventsStore =
      (List.range 10).foldl (fun s i => incrementUsage s ("u") (t0 + 1000 * i)) [] ∧
    dailyCount tenEventsStore ("u") (dayStart (t0 + 10000)) = 10 ∧
    (checkRateLimit tenEventsStore ("u") (t0 + 10000)).1.allowed = true ∧
    (checkRateLimit tenEventsStore ("u") (t0 + 10000)).1.remainingMinute = 9 := by
  decide

/-- C7: when the daily usage record of the requesting user has reached
`RATE_LIMIT_PER_DAY` (100), `checkRateLimit` denies the request with
`remainingMinute = 0`, `remainingDaily = 0` and a reset time at the start
of the next calendar day. -/
theorem checkRateLimit_daily_limit_denies (store : List AIUsage) (u : String)
    (now : Time) (r : AIUsage)
    (hfind : findDaily store u (dayStart now) = some r)
    (hcount : RATE_LIMIT_PER_DAY ≤ r.count) :
    (checkRateLimit store u now).1 =
      { allowed := false, remainingMinute := 0, remainingDaily := 0,
        resetTime := some (dayStart now + msPerDay) } := by
  unfold checkRateLimit
  dsimp only
  rw [hfind]
  simp [hcount]

/-- Witness for C7 at a concrete store whose daily count is 100. -/
theorem checkRateLimit_daily_limit_denies_witness :
    (checkRateLimit fullDayStore ("u") t0).1 =
      { allowed := false, remainingMinute := 0, remainingDaily := 0,
        resetTime := some (dayStart t0 + msPerDay) } :=
  checkRateLimit_daily_limit_denies fullDayStore ("u") t0
    { userId := "u", date := dayStart t0, count := 100, updatedAt := t0 - 1 }
    (by decide) (by decide)

/-- C4: an issue update with a description present clears exactly the
summary and suggestion slots (both content and timestamp) and leaves the
discussion-digest slot untouched; an update without a description leaves
every cached slot untouched whatever other fields (title, status,
assignee, priority, due date, labels, position) it carries; adding a
comment clears exactly the discussion-digest slot. -/
theorem invalidation_clears_exactly_mapped_slots (i : Issue)
    (p : UpdatePayload) (c : Comment) :
    ((updateIssue i p).aiCommentSummary = i.aiCommentSummary ∧
     (updateIssue i p).aiCommentSummaryCachedAt = i.aiCommentSummaryCachedAt) ∧
    ((updateIssue i p).aiSummary =
        if p.description.isSome then none else i.aiSummary) ∧
    ((updateIssue i p).aiSummaryCachedAt =
        if p.description.isSome then none else i.aiSummaryCachedAt) ∧
    ((updateIssue i p).aiSuggestion =
        if p.description.isSome then none else i.aiSuggestion) ∧
    ((updateIssue i p).aiSuggestionCachedAt =
        if p.description.isSome then none else i.aiSuggestionCachedAt) ∧
    ((addComment i c).aiCommentSummary = none ∧
     (addComment i c).aiCommentSummaryCachedAt = none ∧
     (addComment i c).aiSummary = i.aiSummary ∧
     (addComment i c).aiSummaryCachedAt = i.aiSummaryCachedAt ∧
     (addComment i c).aiSuggestion = i.aiSuggestion ∧
     (addComment i c).aiSuggestionCachedAt = i.aiSuggestionCachedAt) := by
  cases hd : p.description <;>
    simp [updateIssue, buildUpdateData, applyUpdateData, addComment, hd]

/-- C6 counterexample: the claim says that a successful external call
whose content is unparseable fails with an upstream generation error
surfaced to the caller. At a concrete unparseable content the code
instead returns a plain success: an empty label list, an empty duplicate
list, and a digest wrapping the raw content. -/
theorem unparseable_content_swallowed_cex :
    recommendLabels ("Fix login") ("desc") [{ id := "1", name := "bug" }]
        (Except.ok (some ("no structured output"))) (fun _ => none) =
      Except.ok [] ∧
    detectDuplicates ("Fix login") [{ id := "1", title := "Fix login button" }]
        (Except.ok (some ("no structured output"))) (fun _ => none) =
      Except.ok [] ∧
    summarizeComments ("Fix login")
        [mkComment 1, mkComment 2, mkComment 3, mkComment 4, mkComment 5]
        (Except.ok (some ("garbage output"))) (fun _ => none) =
      Except.ok { summary := "garbage output", keyDecisions := [] } := by
  refine ⟨rfl, rfl, rfl⟩

/-- C6 amended: when the external call itself succeeds, the three parsing
features never surface an error, whatever the content: label
recommendation and duplicate detection return a success, in particular an
empty list when the bracket extraction fails, and comment summarization
(with its five-comment precondition met) returns a success, falling back
to the raw content. Unparseable content is swallowed into a success
response, not surfaced as an upstream generation error. -/
theorem parse_failure_swallowed_into_success (t d tc : String)
    (ls : List LabelRef) (is : List IssueRef) (cs : List Comment)
    (c : Option String) (jn : String → Option (List String))
    (js : String → Option (List SimEntry)) (jd : String → Option DigestResult) :
    (∃ v, recommendLabels t d ls (Except.ok c) jn = Except.ok v) ∧
    (∃ v, detectDuplicates t is (Except.ok c) js = Except.ok v) ∧
    (5 ≤ cs.length →
      ∃ v, summarizeComments tc cs (Except.ok c) jd = Except.ok v) ∧
    (matchBrackets (orDefault c ("[]")) = none →
      recommendLabels t d ls (Except.ok c) jn = Except.ok [] ∧
      detectDuplicates t is (Except.ok c) js = Except.ok []) := by
  refine ⟨?_, ?_, ?_, ?_⟩
  · unfold recommendLabels
    dsimp only
    repeat' split
    all_goals exact ⟨_, rfl⟩
  · unfold detectDuplicates
    dsimp only
    repeat' split
    all_goals exact ⟨_, rfl⟩
  · intro h5
    unfold summarizeComments
    rw [if_neg (by omega)]
    dsimp only
    repeat' split
    all_goals exact ⟨_, rfl⟩
  · intro hm
    constructor
    · unfold recommendLabels
      split
      · rfl
      · dsimp only
        rw [hm]
    · unfold detectDuplicates
      split
      · rfl
      · dsimp only
        rw [hm]


/-- Witness for C6 amended at concrete unparseable content. -/
theorem parse_failure_swallowed_into_success_witness :
    recommendLabels ("t") ("d") [{ id := "1", name := "bug" }]
        (Except.ok (some ("garbage"))) (fun _ => none) = Except.ok [] ∧
    detectDuplicates ("t") [{ id := "1", title := "x" }]
        (Except.ok (some ("garbage"))) (fun _ => none) = Except.ok [] ∧
    (∃ v, summarizeComments ("t")
        [mkComment 1, mkComment 2, mkComment 3, mkComment 4, mkComment 5]
        (Except.ok (some ("garbage"))) (fun _ => none) = Except.ok v) := by
  refine ⟨?_, ?_, ?_⟩
  · exact ((parse_failure_swallowed_into_success ("t") ("d") ("t")
      [{ id := "1", name := "bug" }] [{ id := "1", title := "x" }]
      [mkComment 1, mkComment 2, mkComment 3, mkComment 4, mkComment 5]
      (some ("garbage")) (fun _ => none) (fun _ => none) (fun _ => none)).2.2.2
      (by decide)).1
  · exact ((parse_failure_swallowed_into_success ("t") ("d") ("t")
      [{ id := "1", name := "bug" }] [{ id := "1", title := "x" }]
      [mkComment 1, mkComment 2, mkComment 3, mkComment 4, mkComment 5]
      (some ("garbage")) (fun _ => none) (fun _ => none) (fun _ => none)).2.2.2
      (by decide)).2
  · exact (parse_failure_swallowed_into_success ("t") ("d") ("t")
      [{ id := "1", name := "bug" }] [{ id := "1", title := "x" }]
      [mkComment 1, mkComment 2, mkComment 3, mkComment 4, mkComment 5]
      (some ("garbage")) (fun _ => none) (fun _ => none) (fun _ => none)).2.2.1
      (by decide)

lemma handleAllowed_error_api (ty : AIType) (issue : Issue)
    (rl : RateLimitStatus) (st1 : List AIUsage) (u : String) (now : Time)
    (msg : String) (parse : String → Option DigestResult) :
    (handleAllowed ty issue rl st1 u now (Except.error msg) parse).generatorCalled = true →
    isUpstreamFailed (handleAllowed ty issue rl st1 u now (Except.error msg) parse).response = true ∧
    (handleAllowed ty issue rl st1 u now (Except.error msg) parse).store =
      incrementUsage st1 u now := by
  cases ty <;>
    simp only [handleAllowed, generateIssueSummary_error_api,
      generateSolutionSuggestion_error_api, summarizeComments_error_api] <;>
    (repeat' split) <;>
    simp [isUpstreamFailed]

/-- C2 counterexample: the claim says a generation request whose external
call fails does not increment the daily usage count. At a concrete
request (long-enough description, empty cache, failing external call) the
daily count goes from 0 to 1 while the failure is surfaced as a 500. -/
theorem failed_call_consumes_quota_cex :
    (handleIssueAI .summary emptyCacheIssue [] ("u") t0
        (Except.error ("boom")) (fun _ => none)).response =
      .serverError ("boom") ∧
    dailyCount (handleIssueAI .summary emptyCacheIssue [] ("u") t0
        (Except.error ("boom")) (fun _ => none)).store ("u") (dayStart t0) = 1 ∧
    dailyCount ([] : List AIUsage) ("u") (dayStart t0) = 0 := by
  refine ⟨rfl, rfl, rfl⟩

/-- C2 amended: the ledger increment runs before the external call, so
whenever a generation request actually invokes the generator and the call
throws, the failure is surfaced as an upstream failure and the daily
usage count has already been incremented by one: a failed call consumes
exactly one unit of quota. -/
theorem upstream_failure_already_charged (ty : AIType) (issue : Issue)
    (store : List AIUsage) (u : String) (now : Time) (msg : String)
    (parse : String → Option DigestResult)
    (hgen : (handleIssueAI ty issue store u now (Except.error msg) parse).generatorCalled = true) :
    isUpstreamFailed (handleIssueAI ty issue store u now
        (Except.error msg) parse).response = true ∧
    dailyCount (handleIssueAI ty issue store u now
        (Except.error msg) parse).store u (dayStart now) =
      dailyCount store u (dayStart now) + 1 := by
  by_cases hA : (checkRateLimit store u now).1.allowed = true
  · rw [handleIssueAI_allowed ty issue store u now (Except.error msg) parse hA] at hgen ⊢
    have h2 := handleAllowed_error_api ty issue (checkRateLimit store u now).1
      (checkRateLimit store u now).2 u now msg parse hgen
    refine ⟨h2.1, ?_⟩
    rw [h2.2, dailyCount_incrementUsage, dailyCount_checkRateLimit]
  · exfalso
    unfold handleIssueAI at hgen
    simp [hA] at hgen

/-- Witness for C2 amended at a concrete failing request. -/
theorem upstream_failure_already_charged_witness :
    isUpstreamFailed (handleIssueAI .summary emptyCacheIssue [] ("u") t0
        (Except.error ("down")) (fun _ => none)).response = true ∧
    dailyCount (handleIssueAI .summary emptyCacheIssue [] ("u") t0
        (Except.error ("down")) (fun _ => none)).store ("u") (dayStart t0) =
      dailyCount ([] : List AIUsage) ("u") (dayStart t0) + 1 :=
  upstream_failure_already_charged .summary emptyCacheIssue [] ("u") t0
    ("down") (fun _ => none) (by decide)

/-- C5 counterexample: the claim says every generation request proceeds
in the order Validate, then QuotaCheck, then CacheCheck. At a concrete
summary request whose slot is populated and whose description would fail
validation, the invocation performs QuotaCheck first, then CacheCheck,
and never performs Validate at all, terminating as Served. -/
theorem orchestrator_order_cex :
    (handleIssueAI .summary cachedSummaryShortDesc [] ("u") t0
        (Except.error ("boom")) (fun _ => none)).trace =
      [Phase.quotaCheck, Phase.cacheCheck] ∧
    Phase.validate ∉ (handleIssueAI .summary cachedSummaryShortDesc [] ("u") t0
        (Except.error ("boom")) (fun _ => none)).trace ∧
    canUseAI cachedSummaryShortDesc.description = false ∧
    isServed (handleIssueAI .summary cachedSummaryShortDesc [] ("u") t0
        (Except.error ("boom")) (fun _ => none)).response = true := by
  decide

/-- C5 amended: every invocation performs QuotaCheck first; for summary
and suggestion requests the cache check precedes validation, while for
digest requests validation precedes the cache check; the possible phase
sequences are exactly the listed prefixes, and every invocation ends in
exactly one of the four terminal classes Served, QuotaExceeded,
ValidationFailed, UpstreamFailed. -/
theorem orchestrator_trace_and_terminal (ty : AIType) (issue : Issue)
    (store : List AIUsage) (u : String) (now : Time) (api : ApiOutcome)
    (parse : String → Option DigestResult) :
    (handleIssueAI ty issue store u now api parse).trace ∈ allowedTraces ∧
    (handleIssueAI ty issue store u now api parse).trace.head? =
      some Phase.quotaCheck ∧
    terminalCount (handleIssueAI ty issue store u now api parse).response = 1 := by
  unfold handleIssueAI
  by_cases hA : (checkRateLimit store u now).1.allowed
  · simp only [hA, if_true]
    cases ty <;> simp only [handleAllowed] <;> (repeat' split) <;>
      simp [allowedTraces, terminalCount, isServed, isQuotaExceeded,
        isValidationFailed, isUpstreamFailed]
  · simp [hA, allowedTraces, terminalCount, isServed, isQuotaExceeded,
      isValidationFailed, isUpstreamFailed]

/-- C10: for summary and suggestion requests the populated-slot check is
performed before input validation, so whenever the slot is populated the
cached content is returned with cached = true and the generator is not
called, whatever the current description is (absent or too short
included). -/
theorem cache_checked_before_validation (issue : Issue) (store : List AIUsage)
    (u : String) (now : Time) (api : ApiOutcome)
    (parse : String → Option DigestResult)
    (hA : (checkRateLimit store u now).1.allowed = true) :
    (slotPopulated .summary issue = true →
      (handleIssueAI .summary issue store u now api parse).response =
        .ok (.text (issue.aiSummary.getD (""))) true
          (checkRateLimit store u now).1.remainingMinute
          (checkRateLimit store u now).1.remainingDaily ∧
      (handleIssueAI .summary issue store u now api parse).generatorCalled = false) ∧
    (slotPopulated .suggestion issue = true →
      (handleIssueAI .suggestion issue store u now api parse).response =
        .ok (.text (issue.aiSuggestion.getD (""))) true
          (checkRateLimit store u now).1.remainingMinute
          (checkRateLimit store u now).1.remainingDaily ∧
      (handleIssueAI .suggestion issue store u now api parse).generatorCalled = false) := by
  refine ⟨fun hp => ?_, fun hp => ?_⟩
  · rw [handleIssueAI_allowed .summary issue store u now api parse hA]
    have hp' : (strTruthy issue.aiSummary && issue.aiSummaryCachedAt.isSome) = true := hp
    simp [handleAllowed, hp']
  · rw [handleIssueAI_allowed .suggestion issue store u now api parse hA]
    have hp' : (strTruthy issue.aiSuggestion && issue.aiSuggestionCachedAt.isSome) = true := hp
    simp [handleAllowed, hp']

/-- Witness for C10: a populated summary slot is served although the
current description is five characters long. -/
theorem cache_checked_before_validation_witness :
    canUseAI cachedSummaryShortDesc.description = false ∧
    (handleIssueAI .summary cachedSummaryShortDesc [] ("u") t0
        (Except.error ("boom")) (fun _ => none)).response =
      .ok (.text (cachedSummaryShortDesc.aiSummary.getD (""))) true
        (checkRateLimit [] ("u") t0).1.remainingMinute
        (checkRateLimit [] ("u") t0).1.remainingDaily ∧
    (handleIssueAI .summary cachedSummaryShortDesc [] ("u") t0
        (Except.error ("boom")) (fun _ => none)).generatorCalled = false :=
  ⟨by decide,
   ((cache_checked_before_validation cachedSummaryShortDesc [] ("u") t0
      (Except.error ("boom")) (fun _ => none) (by decide)).1 (by decide)).1,
   ((cache_checked_before_validation cachedSummaryShortDesc [] ("u") t0
      (Except.error ("boom")) (fun _ => none) (by decide)).1 (by decide)).2⟩

/-- C9 counterexample: the claim says every generation request whose
free-text input is not longer than 10 characters is denied with a
validation error. At a concrete summary request with a 5-character
description but a populated summary slot, the request is served from the
cache with a 200 instead of being denied. -/
theorem validation_bypassed_on_cache_hit_cex :
    canUseAI cachedSummaryShortDesc.description = false ∧
    (handleIssueAI .summary cachedSummaryShortDesc [] ("u") t0
        (Except.error ("boom")) (fun _ => none)).response =
      .ok (.text ("cached summary")) true 9 100 ∧
    isValidationFailed (handleIssueAI .summary cachedSummaryShortDesc [] ("u") t0
        (Except.error ("boom")) (fun _ => none)).response = false := by
  decide

/-- C9 amended: a quota-allowed summary or suggestion request whose slot
is empty and whose description fails `canUseAI`, and a digest request
with fewer than five comments, are denied with a 400 validation error,
with no generator call, no change to the issue row and no change to the
daily usage count. On a populated summary or suggestion slot the cached
content is served instead, so the validation-error guarantee only holds
on a cache miss. -/
theorem validation_failure_rejects_without_effects (ty : AIType)
    (issue : Issue) (store : List AIUsage) (u : String) (now : Time)
    (api : ApiOutcome) (parse : String → Option DigestResult)
    (hA : (checkRateLimit store u now).1.allowed = true) :
    ((ty = .summary ∨ ty = .suggestion) → slotPopulated ty issue = false →
      canUseAI issue.description = false →
      (handleIssueAI ty issue store u now api parse).response =
        .badRequest ("Description must be longer than 10 characters for AI features") ∧
      (handleIssueAI ty issue store u now api parse).generatorCalled = false ∧
      (handleIssueAI ty issue store u now api parse).issue = issue ∧
      dailyCount (handleIssueAI ty issue store u now api parse).store u
          (dayStart now) = dailyCount store u (dayStart now)) ∧
    (ty = .commentSummary → issue.comments.length < 5 →
      (handleIssueAI ty issue store u now api parse).response =
        .badRequest ("At least 5 comments are required for summarization") ∧
      (handleIssueAI ty issue store u now api parse).generatorCalled = false ∧
      (handleIssueAI ty issue store u now api parse).issue = issue ∧
      dailyCount (handleIssueAI ty issue store u now api parse).store u
          (dayStart now) = dailyCount store u (dayStart now)) := by
  rw [handleIssueAI_allowed ty issue store u now api parse hA]
  constructor
  · rintro (rfl | rfl) hp hv
    · have hp' : (strTruthy issue.aiSummary && issue.aiSummaryCachedAt.isSome) = false := hp
      simp [handleAllowed, hp', hv, dailyCount_checkRateLimit]
    · have hp' : (strTruthy issue.aiSuggestion && issue.aiSuggestionCachedAt.isSome) = false := hp
      simp [handleAllowed, hp', hv, dailyCount_checkRateLimit]
  · rintro rfl h5
    simp [handleAllowed, h5, dailyCount_checkRateLimit]

/-- Witness for C9 amended: a summary request with an empty cache and a
5-character description is rejected with no effects. -/
theorem validation_failure_rejects_without_effects_witness :
    (handleIssueAI .summary shortDescNoCache [] ("u") t0
        (Except.ok (some ("text"))) (fun _ => none)).response =
      .badRequest ("Description must be longer than 10 characters for AI features") ∧
    (handleIssueAI .summary shortDescNoCache [] ("u") t0
        (Except.ok (some ("text"))) (fun _ => none)).generatorCalled = false ∧
    (handleIssueAI .summary shortDescNoCache [] ("u") t0
        (Except.ok (some ("text"))) (fun _ => none)).issue = shortDescNoCache ∧
    dailyCount (handleIssueAI .summary shortDescNoCache [] ("u") t0
        (Except.ok (some ("text"))) (fun _ => none)).store ("u") (dayStart t0) =
      dailyCount ([] : List AIUsage) ("u") (dayStart t0) :=
  (validation_failure_rejects_without_effects .summary shortDescNoCache []
      ("u") t0 (Except.ok (some ("text"))) (fun _ => none) (by decide)).1
    (Or.inl rfl) (by decide) (by decide)

/-- C3 counterexample: the claim says every generation request that finds
its slot populated returns the cached content with cached = true. At a
concrete digest request whose digest slot is populated but whose issue
has only four non-deleted comments, the comment-count check runs before
the cache check and the request is rejected with a 400 instead of being
served from the cache. -/
theorem digest_cache_hit_rejected_cex :
    slotPopulated .commentSummary cachedDigestFourComments = true ∧
    (handleIssueAI .commentSummary cachedDigestFourComments [] ("u") t0
        (Except.ok (some ("x"))) (fun _ => none)).response =
      .badRequest ("At least 5 comments are required for summarization") ∧
    isServed (handleIssueAI .commentSummary cachedDigestFourComments [] ("u") t0
        (Except.ok (some ("x"))) (fun _ => none)).response = false := by
  decide

/-- C3 amended: a quota-allowed request that finds its slot populated
never calls the generator and changes neither the issue row nor the daily
usage count; summary and suggestion requests then return the cached
content with cached = true unconditionally, while a digest request does
so only when the issue also has at least five comments and the cached
string parses back (with fewer than five comments it is rejected with a
400 validation error instead, still with no generator call and no quota
consumed). -/
theorem cache_hit_serves_without_generator (ty : AIType) (issue : Issue)
    (store : List AIUsage) (u : String) (now : Time) (api : ApiOutcome)
    (parse : String → Option DigestResult)
    (hA : (checkRateLimit store u now).1.allowed = true)
    (hp : slotPopulated ty issue = true) :
    (handleIssueAI ty issue store u now api parse).generatorCalled = false ∧
    (handleIssueAI ty issue store u now api parse).issue = issue ∧
    dailyCount (handleIssueAI ty issue store u now api parse).store u
        (dayStart now) = dailyCount store u (dayStart now) ∧
    (ty = .summary →
      (handleIssueAI ty issue store u now api parse).response =
        .ok (.text (issue.aiSummary.getD (""))) true
          (checkRateLimit store u now).1.remainingMinute
          (checkRateLimit store u now).1.remainingDaily) ∧
    (ty = .suggestion →
      (handleIssueAI ty issue store u now api parse).response =
        .ok (.text (issue.aiSuggestion.getD (""))) true
          (checkRateLimit store u now).1.remainingMinute
          (checkRateLimit store u now).1.remainingDaily) ∧
    (ty = .commentSummary → issue.comments.length < 5 →
      (handleIssueAI ty issue store u now api parse).response =
        .badRequest ("At least 5 comments are required for summarization")) ∧
    (ty = .commentSummary → 5 ≤ issue.comments.length →
      ∀ d, parse (issue.aiCommentSummary.getD ("")) = some d →
        (handleIssueAI ty issue store u now api parse).response =
          .ok (.digest d) true
            (checkRateLimit store u now).1.remainingMinute
            (checkRateLimit store u now).1.remainingDaily) := by
  rw [handleIssueAI_allowed ty issue store u now api parse hA]
  cases ty with
  | summary =>
    have hp' : (strTruthy issue.aiSummary && issue.aiSummaryCachedAt.isSome) = true := hp
    simp [handleAllowed, hp', dailyCount_checkRateLimit]
  | suggestion =>
    have hp' : (strTruthy issue.aiSuggestion && issue.aiSuggestionCachedAt.isSome) = true := hp
    simp [handleAllowed, hp', dailyCount_checkRateLimit]
  | commentSummary =>
    have hp' : (strTruthy issue.aiCommentSummary && issue.aiCommentSummaryCachedAt.isSome) = true := hp
    by_cases h5 : issue.comments.length < 5
    · have hno : ¬ 5 ≤ issue.comments.length := by omega
      simp [handleAllowed, h5, hno, dailyCount_checkRateLimit]
    · cases hparse : parse (issue.aiCommentSummary.getD ("")) with
      | some d => simp [handleAllowed, h5, hp', hparse, dailyCount_checkRateLimit]
      | none => simp [handleAllowed, h5, hp', hparse, dailyCount_checkRateLimit]

/-- Witness for C3 amended at the populated-digest four-comment issue. -/
theorem cache_hit_serves_without_generator_witness :
    (handleIssueAI .commentSummary cachedDigestFourComments [] ("u") t0
        (Except.ok (some ("x"))) (fun _ => none)).generatorCalled = false ∧
    dailyCount (handleIssueAI .commentSummary cachedDigestFourComments []
        ("u") t0 (Except.ok (some ("x"))) (fun _ => none)).store ("u")
        (dayStart t0) =
      dailyCount ([] : List AIUsage) ("u") (dayStart t0) :=
  ⟨(cache_hit_serves_without_generator .commentSummary cachedDigestFourComments
      [] ("u") t0 (Except.ok (some ("x"))) (fun _ => none)
      (by decide) (by decide)).1,
   (cache_hit_serves_without_generator .commentSummary cachedDigestFourComments
      [] ("u") t0 (Except.ok (some ("x"))) (fun _ => none)
      (by decide) (by decide)).2.2.1⟩

/-- C8: every operation touching a cached slot (generation-and-persist,
description-edit invalidation, comment-added invalidation) preserves the
invariant that a slot's content is non-empty exactly when its cached-at
timestamp is non-null: no operation sets or clears one of the pair
without the other. -/
theorem slot_invariant_preserved (ty : AIType) (issue : Issue)
    (store : List AIUsage) (u : String) (now : Time) (api : ApiOutcome)
    (parse : String → Option DigestResult) (p : UpdatePayload) (c : Comment)
    (h : slotInv issue) :
    slotInv (handleIssueAI ty issue store u now api parse).issue ∧
    slotInv (updateIssue issue p) ∧
    slotInv (addComment issue c) := by
  obtain ⟨h1, h2, h3⟩ := h
  refine ⟨?_, ?_, ?_⟩
  · unfold handleIssueAI
    by_cases hA : (checkRateLimit store u now).1.allowed
    · simp only [hA, if_true]
      cases ty with
      | summary =>
        simp only [handleAllowed]
        split
        · exact ⟨h1, h2, h3⟩
        · split
          · exact ⟨h1, h2, h3⟩
          · split
            · exact ⟨h1, h2, h3⟩
            · rename_i s hs
              have hne := generateIssueSummary_ok_ne_empty issue.title
                (issue.description.getD ("")) api s hs
              refine ⟨?_, h2, h3⟩
              simp [strTruthy, hne]
      | suggestion =>
        simp only [handleAllowed]
        split
        · exact ⟨h1, h2, h3⟩
        · split
          · exact ⟨h1, h2, h3⟩
          · split
            · exact ⟨h1, h2, h3⟩
            · rename_i s hs
              have hne := generateSolutionSuggestion_ok_ne_empty issue.title
                (issue.description.getD ("")) api s hs
              refine ⟨h1, ?_, h3⟩
              simp [strTruthy, hne]
      | commentSummary =>
        simp only [handleAllowed]
        split
        · exact ⟨h1, h2, h3⟩
        · split
          · split
            · exact ⟨h1, h2, h3⟩
            · exact ⟨h1, h2, h3⟩
          · split
            · exact ⟨h1, h2, h3⟩
            · rename_i d hd
              have hne := jsonStringifyDigest_beq_empty_false d
              refine ⟨h1, h2, ?_⟩
              simp [strTruthy, hne]
    · simp only [hA, if_false]
      exact ⟨h1, h2, h3⟩
  · cases hd : p.description with
    | some v =>
      unfold slotInv updateIssue buildUpdateData applyUpdateData
      simp [hd, strTruthy]
      exact h3
    | none =>
      unfold slotInv updateIssue buildUpdateData applyUpdateData
      simp [hd]
      exact ⟨h1, h2, h3⟩
  · unfold slotInv addComment
    simp [strTruthy]
    exact ⟨h1, h2⟩

/-- Witness for C8 at a concrete issue satisfying the invariant, with a
successful generation, a description edit and a comment creation. -/
theorem slot_invariant_preserved_witness :
    slotInv (handleIssueAI .summary emptyCacheIssue [] ("u") t0
        (Except.ok (some ("a generated summary"))) (fun _ => none)).issue ∧
    slotInv (updateIssue emptyCacheIssue updatePayloadDesc) ∧
    slotInv (addComment emptyCacheIssue (mkComment 1)) :=
  slot_invariant_preserved .summary emptyCacheIssue [] ("u") t0
    (Except.ok (some ("a generated summary"))) (fun _ => none)
    updatePayloadDesc (mkComment 1) ⟨rfl, rfl, rfl⟩

end JiraLite
